import Mathlib

/-!
# Firefox browser-session manager: a shallow embedding

This file embeds, in Lean 4, the browser session connection/lifecycle
manager of the Firefox automation skills (`src/skills/firefox`):
the transport connector (`lib/connect.js`), the lifecycle controller
(`firefox-start.js`, `firefox-content.js`) and the profile provisioner
(`lib/firefox.js`).  Pure logic is translated directly; effectful steps
(process spawning, sleeping, console output, process exit) are recorded in
explicit event traces, and the external world (whether a listener is
present, how long a handshake takes, what the spawned process prints) is a
parameter of each function.
-/

namespace FirefoxSkill

/-! ## Active-page resolver (`activePage` in `lib/connect.js`)

A page handle carries the identifier of its main frame's browsing context
(`p.mainFrame().browsingContext.id`).  `activePage` receives the flat page
list returned by `browser.pages()` together with the set of top-level
browsing-context identifiers reported by the BiDi command
`browsingContext.getTree` (iframes appear in `pages()` but not among the
top-level tree contexts). -/

structure Page where
  ctxId : Nat
deriving DecidableEq, Repr

inductive PageErr where
  /-- the "✗ No active tab found" + exit 1 path -/
  | noActiveTab
deriving DecidableEq, Repr

/-- Embedding of `activePage` (`lib/connect.js`):
if `pages` is empty fail; otherwise filter to pages whose context id is
top-level, take the last of the filtered list, falling back to the last of
the unfiltered list (the JS is `topLevelPages.at(-1) || pages.at(-1)`). -/
def activePage (pages : List Page) (topLevelIds : List Nat) : Except PageErr Page :=
  if pages.isEmpty then
    .error .noActiveTab
  else
    let topLevelPages := pages.filter (fun p => topLevelIds.contains p.ctxId)
    match topLevelPages.getLast? with
    | some p => .ok p
    | none =>
      match pages.getLast? with
      | some p => .ok p
      | none => .error .noActiveTab

/-! ## Preference suppression (`disableSyncPrefs` in `lib/firefox.js`)

The function reads the destination profile's `user.js` (treated as the
empty string when absent) and appends the three fixed `user_pref` lines
via a shell heredoc, guarded by a substring check on the first pref's
key. We model the file by its content string. -/

/-- The exact text the heredoc appends: the three `user_pref` lines, each
terminated by a newline (the template literal starts and ends with a
newline; the heredoc drops the leading blank line). -/
def syncPrefsText : String :=
  "user_pref(\"identity.fxaccounts.enabled\", false);\n" ++
  "user_pref(\"datareporting.policy.dataSubmissionEnabled\", false);\n" ++
  "user_pref(\"toolkit.telemetry.enabled\", false);\n"

/-- The guard substring checked by `existing.includes(...)`. -/
def syncMarker : String := "identity.fxaccounts.enabled"

/-- JS `String.prototype.includes`, on the underlying character lists. -/
def containsSub (s pat : String) : Bool := decide (pat.data <:+: s.data)

/-- Embedding of `disableSyncPrefs`: append the pref block unless the
marker substring is already present. -/
def disableSyncPrefs (existing : String) : String :=
  if containsSub existing syncMarker then existing else existing ++ syncPrefsText

/-! ## Single-shot content extraction (`firefox-content.js`, headless variant)

The script either connects to an already-running Firefox (and then opens a
new tab with `browser.newPage()`), or spawns a headless Firefox itself
(`firefoxProc` is then non-null and it uses the spawned browser's initial
page).  The body (navigate, evaluate, Readability extraction) runs inside
a `try` whose `finally` block closes the page and then, depending on
whether we spawned the process, closes the browser and kills the detached
process group, or merely disconnects.

We model the observable session state explicitly: the set of open tab
identifiers, whether the browser process is running, and whether our
connection to it is open. -/

structure BrowserState where
  tabs : List Nat
  procRunning : Bool
  connected : Bool
deriving DecidableEq, Repr

/-- A tab identifier not yet in use (the new browsing context created by
`browser.newPage()`). -/
def freshTabId (s : BrowserState) : Nat := s.tabs.foldr max 0 + 1

/-- `browser.newPage()`: opens one fresh tab and hands back its id. -/
def newPage (s : BrowserState) : BrowserState × Nat :=
  (⟨s.tabs ++ [freshTabId s], s.procRunning, s.connected⟩, freshTabId s)

/-- `page.close()`: closes exactly the tab with the given id. -/
def closePage (s : BrowserState) (t : Nat) : BrowserState :=
  ⟨s.tabs.filter (fun x => x ≠ t), s.procRunning, s.connected⟩

/-- The three ways the `try` body can exit: normal completion, a thrown
extraction error (e.g. `page.evaluate` rejecting), or a navigation
failure (`page.goto` losing its race; the script swallows it with
`.catch` and continues, but we keep it as a separate exit path). -/
inductive FlowOutcome where
  | success
  | extractError
  | navFailure
deriving DecidableEq, Repr

/-- The body of the `try` block: navigation and in-page evaluation do not
open or close tabs, stop the browser process, or drop the connection,
whatever the outcome. -/
def extractBody (_ : FlowOutcome) (s : BrowserState) : BrowserState := s

/-- The `finally` block of `firefox-content.js`: close the page we worked
on; then, if we spawned the process (`firefoxProc` non-null), close the
browser and SIGTERM its detached process group, else just disconnect. -/
def contentCleanup (spawnedByUs : Bool) (page : Nat) (s : BrowserState) : BrowserState :=
  let s1 := closePage s page
  if spawnedByUs then
    { s1 with procRunning := false, connected := false }
  else
    { s1 with connected := false }

/-- The connect-to-existing branch of `firefox-content.js`: open a new
tab, run the body (with any of the three outcomes), then the `finally`
cleanup with `spawnedByUs = false`.  Returns the final state together
with the id of the tab the flow operated on. -/
def contentFlowReused (o : FlowOutcome) (s0 : BrowserState) : BrowserState × Nat :=
  let s1 : BrowserState := { s0 with connected := true }
  let (s2, pg) := newPage s1
  (contentCleanup false pg (extractBody o s2), pg)

/-- The spawn-headless branch: a fresh browser with a single initial page
(`pages[0]`), body, then cleanup with `spawnedByUs = true`. -/
def contentFlowSpawned (o : FlowOutcome) : BrowserState :=
  let s1 : BrowserState := ⟨[0], true, true⟩
  contentCleanup true 0 (extractBody o s1)


/-! ## Transport connector and lifecycle controller
(`lib/connect.js`, `firefox-start.js`)

`connect()` races one `puppeteer.connect` attempt against a 5000ms timer
and never retries; `connectOrExit()` turns a failure into a terminal
user-facing message plus `process.exit(1)`.  `firefox-start.js` first
checks whether a browser is already listening (success, no spawn, exit 0),
otherwise spawns one detached Firefox process and polls `connect()` every
500ms for at most 30 attempts.

The observable effects are recorded as an event trace; the environment is
a `ConnWorld`/`StartWorld` value saying whether a listener is present, how
long the raw handshake attempt takes, and which poll attempts succeed. -/

inductive Ev where
  | connectAttempt
  | spawn
  | sleep (ms : Nat)
  | msg (text : String)
  | exit (code : Nat)
deriving DecidableEq, Repr

/-- The 5000ms timer raced against `puppeteer.connect` in `connect()`. -/
def CONNECT_TIMEOUT_MS : Nat := 5000

structure ConnWorld where
  /-- is anything listening at `ws://127.0.0.1:PORT/session`? -/
  listener : Bool
  /-- how long the raw connect promise takes to settle on its own -/
  attemptMs : Nat

inductive ConnErr where
  | refused
  | timeout
deriving DecidableEq, Repr

structure ConnResult where
  trace : List Ev
  result : Except ConnErr Unit
  durationMs : Nat

/-- Embedding of `connect()` (`lib/connect.js`): a single connection
attempt raced against a 5000ms timer.  No listener means the attempt is
refused (or, if the refusal outlasts the timer, the timer rejects
first); either way one bounded attempt, no retries. -/
def connect (w : ConnWorld) : ConnResult :=
  if w.attemptMs < CONNECT_TIMEOUT_MS then
    { trace := [.connectAttempt]
      result := if w.listener then .ok () else .error .refused
      durationMs := w.attemptMs }
  else
    { trace := [.connectAttempt]
      result := .error .timeout
      durationMs := CONNECT_TIMEOUT_MS }

inductive AcquireErr where
  | noBrowserRunning
  | firefoxNotFound
  | launchTimeout
deriving DecidableEq, Repr

/-- The remediation guidance printed by `connectOrExit`. -/
def remediationMsg : String := "  Run: firefox-start.js"

structure CliOutcome where
  trace : List Ev
  exitCode : Option Nat
  result : Except AcquireErr Unit

/-- Embedding of `connectOrExit()` (`lib/connect.js`): one `connect()`
call; on failure, print the error plus remediation guidance and exit 1
(the `NoBrowserRunning` terminal condition). -/
def connectOrExit (w : ConnWorld) : CliOutcome :=
  let c := connect w
  match c.result with
  | .ok _ => { trace := c.trace, exitCode := none, result := .ok () }
  | .error _ =>
    { trace := c.trace ++
        [.msg "✗ Could not connect to Firefox", .msg remediationMsg, .exit 1]
      exitCode := some 1
      result := .error .noBrowserRunning }

/-- 30 polling attempts in `firefox-start.js`. -/
def POLL_MAX_ATTEMPTS : Nat := 30

/-- 500ms between polling attempts in `firefox-start.js`. -/
def POLL_INTERVAL_MS : Nat := 500

structure StartWorld where
  /-- whether the i-th connection attempt of this invocation succeeds
  (attempt 0 is the initial already-running check) -/
  ready : Nat → Bool
  /-- whether `findFirefox()` locates a binary -/
  firefoxFound : Bool

/-- The `for (let i = 0; i < 30; i++)` polling loop of
`firefox-start.js`: attempt `connect()`; on success stop, otherwise
sleep 500ms and try again, for at most `fuel` attempts. -/
def pollLoop (ready : Nat → Bool) : Nat → Nat → List Ev × Bool
  | _, 0 => ([], false)
  | i, fuel + 1 =>
    if ready i then ([.connectAttempt], true)
    else
      let r := pollLoop ready (i + 1) fuel
      (.connectAttempt :: .sleep POLL_INTERVAL_MS :: r.1, r.2)

/-- Embedding of the `firefox-start.js` main flow: already-running check,
binary lookup, detached spawn, then the bounded polling loop.  (Profile
syncing between the lookup and the spawn touches no process state and is
elided from the trace.) -/
def firefoxStart (w : StartWorld) : CliOutcome :=
  if w.ready 0 then
    { trace := [.connectAttempt, .msg "✓ Firefox already running", .exit 0]
      exitCode := some 0
      result := .ok () }
  else if w.firefoxFound then
    let r := pollLoop w.ready 1 POLL_MAX_ATTEMPTS
    if r.2 then
      { trace := .connectAttempt :: .spawn :: r.1 ++ [.msg "✓ Firefox started", .exit 0]
        exitCode := some 0
        result := .ok () }
    else
      { trace := .connectAttempt :: .spawn :: r.1 ++
          [.msg "✗ Failed to connect to Firefox", .exit 1]
        exitCode := some 1
        result := .error .launchTimeout }
  else
    { trace := [.connectAttempt,
        .msg "✗ Could not find Firefox. Install it or set the path manually.", .exit 1]
      exitCode := some 1
      result := .error .firefoxNotFound }


/-! ## Headless spawn race (`spawnHeadlessFirefox` in `firefox-content.js`)

The spawned process's stdout/stderr lines are fed through readline; the
promise resolves with the endpoint captured by the regex
`^WebDriver BiDi listening on (ws://.*)$` from the first matching line,
rejects with `Firefox exited with code N` on process exit, and a 15000ms
timer rejects with the launch-timeout error.  We model the process's
observable behaviour as a time-stamped event list (in arrival order) and
the race as the first decisive event among those arriving inside the
window; the stream ending without a decisive event is the timeout. -/

inductive SpawnEv where
  | line (text : String)
  | exited (code : Int)
deriving DecidableEq, Repr

inductive SpawnOutcome where
  | endpoint (ws : String)
  | launchTimeout
  | processExited (code : Int)
deriving DecidableEq, Repr

/-- The 15000ms timer in `spawnHeadlessFirefox`. -/
def SPAWN_TIMEOUT_MS : Nat := 15000

/-- The regex `^WebDriver BiDi listening on (ws://.*)$` applied to one
readline line (which contains no newline): the line must start with the
fixed announcement prefix and the rest must start with `ws://`; the
captured group — everything after the prefix — is returned. -/
def matchBidiLine (line : String) : Option String :=
  let pre := "WebDriver BiDi listening on ".data
  let ws := "ws://".data
  if pre.isPrefixOf line.data && ws.isPrefixOf (line.data.drop pre.length) then
    some (String.mk (line.data.drop pre.length))
  else none

/-- Whether an event settles the race: a line matching the announcement
pattern, or the process exiting. -/
def decisive : SpawnEv → Bool
  | .line t => (matchBidiLine t).isSome
  | .exited _ => true

/-- The outcome a decisive event produces. -/
def outcomeOf : SpawnEv → SpawnOutcome
  | .line t =>
    match matchBidiLine t with
    | some ws => .endpoint ws
    | none => .launchTimeout
  | .exited c => .processExited c

/-- Event processing order of the promise body: the first matching line
resolves with its endpoint; an exit event rejects with the code; a
non-matching line is ignored; an exhausted stream means the timer fired
first. -/
def resolveSpawn : List SpawnEv → SpawnOutcome
  | [] => .launchTimeout
  | .line t :: rest =>
    match matchBidiLine t with
    | some ws => .endpoint ws
    | none => resolveSpawn rest
  | .exited c :: _ => .processExited c

/-- Embedding of `spawnHeadlessFirefox`'s wait: only events arriving
strictly before the 15000ms timer can settle the race. -/
def spawnHeadlessFirefox (events : List (Nat × SpawnEv)) : SpawnOutcome :=
  resolveSpawn ((events.filter (fun e => e.1 < SPAWN_TIMEOUT_MS)).map Prod.snd)


/-! ## Profile sync (`syncProfile` in `lib/firefox.js`)

`syncProfile` makes the destination directory, removes the two top-level
lock files, then runs `rsync -a --delete` with the fixed `--exclude`
list from the source profile into the destination (skipped, with
`synced: false`, when no source profile is found).

We model a directory tree as a list of (component-path, content) files.
The exclude patterns contain no slash, so rsync matches them against
every path component during traversal: a path is excluded iff some
component matches some pattern.  Per rsync's documented `--delete`
semantics, `--delete` removes destination files absent from the source
but does **not** remove destination files matching an exclude pattern
(that would need `--delete-excluded`, which the code does not pass);
excluded source files are not copied. -/

abbrev FS := List (List String × String)

/-- One path component matches the fixed `--exclude` list. -/
def excludedComponent (c : String) : Bool :=
  c == ".parentlock" || c == "lock" || c == "crashes" || c == "datareporting" ||
  c == "cache2" || c == "startupCache" || c == "thumbnails" || c == "safebrowsing" ||
  "sessionstore".data.isPrefixOf c.data || c == "sessionCheckpoints.json" ||
  ".sqlite-wal".data.isSuffixOf c.data || ".sqlite-shm".data.isSuffixOf c.data ||
  c == "favicons.sqlite"

/-- A path is excluded iff any of its components matches a pattern
(rsync prunes excluded directories during traversal). -/
def excludedPath (p : List String) : Bool := p.any excludedComponent

/-- The explicit `rm -f "$dst/.parentlock" "$dst/lock"` step. -/
def rmLockFiles (dst : FS) : FS :=
  dst.filter (fun f => !(f.1 == [".parentlock"]) && !(f.1 == ["lock"]))

/-- `rsync -a --delete --exclude=...`: the destination afterwards holds
the non-excluded source files plus the protected (excluded) destination
files; everything else in the destination is deleted. -/
def rsyncArchiveDelete (src dst : FS) : FS :=
  src.filter (fun f => !excludedPath f.1) ++ dst.filter (fun f => excludedPath f.1)

structure SyncResult where
  profile : FS
  synced : Bool
deriving DecidableEq, Repr

/-- Embedding of `syncProfile`: clean the top-level lock files, then
mirror from the resolved source profile when one exists (`none` models
`findDefaultProfile()` failing, which degrades to `synced: false`). -/
def syncProfile (dst : FS) (srcProfile : Option FS) : SyncResult :=
  let dst1 := rmLockFiles dst
  match srcProfile with
  | some src => ⟨rsyncArchiveDelete src dst1, true⟩
  | none => ⟨dst1, false⟩

/-- File-level membership of a path in a tree. -/
def hasPath (fs : FS) (p : List String) : Bool := fs.any (fun f => f.1 == p)

/-- A concrete source profile containing exactly the claim's three
volatile entries plus one ordinary file. -/
def srcEx : FS :=
  [(["prefs.js"], "prefs"), (["lock"], "l"),
   (["cache2", "entry"], "c"), (["sessionstore.jsonlz4"], "s")]

/-- A concrete destination holding a stale `cache2` entry absent from the
source. -/
def dstEx : FS := [(["cache2", "stale"], "old")]

/-! ## Named-profile lookup (`findProfileByName`, `listProfileNames` in
`lib/firefox.js`)

Both functions scan the `.sqlite` files of the `Profile Groups` directory
in readdir order; a database that cannot be opened or lacks the
`Profiles` table is skipped (modelled by `readable = false`); a row
counts only when its profile directory exists on disk.
`findProfileByName` collects all matches, returns the first, and attaches
a warning naming the match count and the chosen path when there are
several.  The CLI flow that consumes these helpers (raising
`ProfileNotFound` with the available names) has no caller under `src/`,
so that part is modelled from the spec (see `startWithNamedProfile`). -/

structure GroupsDB where
  /-- the db opens and has a `Profiles` table (otherwise skipped) -/
  readable : Bool
  /-- the rows of `SELECT path, name FROM Profiles`, as (path, name) -/
  rows : List (String × String)
deriving Repr

structure ProfilesEnv where
  profilesDir : String
  /-- the `.sqlite` files of `Profile Groups`, in directory-listing order -/
  groupsDbs : List GroupsDB
  /-- the full paths that exist on disk (`existsSync`) -/
  pathExists : List String
deriving Repr

def joinPath (dir rel : String) : String := dir ++ "/" ++ rel

/-- The matches one database contributes for a requested name: rows whose
name matches and whose joined path exists. -/
def dbMatches (env : ProfilesEnv) (db : GroupsDB) (name : String) : List String :=
  if db.readable then
    (db.rows.filter (fun r => r.2 == name &&
      env.pathExists.contains (joinPath env.profilesDir r.1))).map
      (fun r => joinPath env.profilesDir r.1)
  else []

/-- All matches across the databases, in collection order. -/
def matchesFor (env : ProfilesEnv) (name : String) : List String :=
  (env.groupsDbs.map (fun db => dbMatches env db name)).flatten

structure FoundProfile where
  path : String
  warning : Option String
deriving DecidableEq, Repr

/-- The warning text of `findProfileByName` for multiple matches. -/
def multiMatchWarning (n : Nat) (name path : String) : String :=
  "Found " ++ toString n ++ " profiles named \"" ++ name ++
  "\", using the first one (" ++ path ++ ")"

/-- Embedding of `findProfileByName`: `none` when nothing matches,
otherwise the first match, with a warning exactly when there are two or
more matches. -/
def findProfileByName (env : ProfilesEnv) (name : String) : Option FoundProfile :=
  match matchesFor env name with
  | [] => none
  | p :: rest =>
    some ⟨p, if (p :: rest).length > 1 then
      some (multiMatchWarning (p :: rest).length name p) else none⟩

/-- Embedding of `listProfileNames`: the display names of all rows (of
readable databases) whose profile directory exists. -/
def listProfileNames (env : ProfilesEnv) : List String :=
  (env.groupsDbs.map (fun db =>
    if db.readable then
      (db.rows.filter (fun r =>
        env.pathExists.contains (joinPath env.profilesDir r.1))).map (fun r => r.2)
    else [])).flatten

inductive ProfileErr where
  | profileNotFound (available : List String)
deriving DecidableEq, Repr

/-- Modelled from the spec: the CLI flow that consumes a named-profile
launch request is not under `src/` (only the helpers
`findProfileByName` and `listProfileNames` are).  Per the spec,
`locateNamedProfile(name)` yields the path or fails with
`ProfileNotFound{available: [names]}`, and on failure the flow terminates
before any browser process is launched; a browser is spawned only after
a successful lookup. -/
def startWithNamedProfile (env : ProfilesEnv) (name : String) :
    List Ev × Except ProfileErr FoundProfile :=
  match findProfileByName env name with
  | some fp => ([.spawn], .ok fp)
  | none =>
    ([.msg "profile not found", .exit 1],
     .error (.profileNotFound (listProfileNames env)))

/-- The spec's end-to-end scenario registry: one readable database with
profiles "Personal" and "Dev", both of which exist on disk. -/
def envEx : ProfilesEnv :=
  ⟨"/home/user/.mozilla/firefox",
   [⟨true, [("p1", "Personal"), ("p2", "Dev")]⟩],
   ["/home/user/.mozilla/firefox/p1", "/home/user/.mozilla/firefox/p2"]⟩

/-! ## Theorems -/

/-! ### Helper lemmas -/

theorem mem_le_foldr_max (x : Nat) (l : List Nat) (h : x ∈ l) : x ≤ l.foldr max 0 := by
  induction l with
  | nil => cases h
  | cons a t ih =>
    rcases List.mem_cons.mp h with h | h
    · subst h; exact Nat.le_max_left _ _
    · exact le_trans (ih h) (Nat.le_max_right _ _)

theorem freshTabId_not_mem (s : BrowserState) : freshTabId s ∉ s.tabs := by
  intro h
  have := mem_le_foldr_max _ _ h
  simp only [freshTabId] at this
  omega

theorem filter_ne_append_singleton (l : List Nat) (v : Nat) (h : v ∉ l) :
    (l ++ [v]).filter (fun x => x ≠ v) = l := by
  induction l with
  | nil => simp
  | cons a t ih =>
    have ha : a ≠ v := fun hav => h (hav ▸ List.mem_cons_self a t)
    have ht : v ∉ t := fun hv => h (List.mem_cons_of_mem a hv)
    simp only [List.cons_append, List.filter_cons, decide_eq_true_eq]
    rw [if_pos ha, ih ht]

theorem pollLoop_attempts_le (ready : Nat → Bool) (i fuel : Nat) :
    (pollLoop ready i fuel).1.count .connectAttempt ≤ fuel := by
  induction fuel generalizing i with
  | zero => simp [pollLoop]
  | succ n ih =>
    by_cases h : ready i
    · simp [pollLoop, h, List.count_cons]
    · simp only [pollLoop, h, Bool.false_eq_true, if_false, List.count_cons]
      have := ih (i + 1)
      simp only [List.count_cons] at this ⊢
      simp
      omega

theorem pollLoop_sleep_fixed (ready : Nat → Bool) (i fuel m : Nat)
    (h : Ev.sleep m ∈ (pollLoop ready i fuel).1) : m = POLL_INTERVAL_MS := by
  induction fuel generalizing i with
  | zero => simp [pollLoop] at h
  | succ n ih =>
    by_cases hr : ready i
    · simp [pollLoop, hr] at h
    · simp only [pollLoop, hr, Bool.false_eq_true, if_false, List.mem_cons] at h
      rcases h with h | h | h
      · exact absurd h (by simp)
      · exact (Ev.sleep.injEq _ _).mp h.symm ▸ rfl
      · exact ih (i + 1) h

theorem count_ev_beq_1 : (Ev.sleep POLL_INTERVAL_MS == Ev.connectAttempt) = false := rfl

theorem count_ev_beq_2 : (Ev.connectAttempt == Ev.connectAttempt) = true := rfl

theorem count_ev_beq_3 : (Ev.sleep POLL_INTERVAL_MS == Ev.sleep POLL_INTERVAL_MS) = true := rfl

theorem count_ev_beq_4 : (Ev.connectAttempt == Ev.sleep POLL_INTERVAL_MS) = false := rfl

theorem pollLoop_interval (ready : Nat → Bool) (i fuel : Nat) :
    (pollLoop ready i fuel).1.count (.sleep POLL_INTERVAL_MS) +
      (if (pollLoop ready i fuel).2 then 1 else 0) =
      (pollLoop ready i fuel).1.count .connectAttempt ∨
    ((pollLoop ready i fuel).2 = false ∧
      (pollLoop ready i fuel).1.count (.sleep POLL_INTERVAL_MS) =
        (pollLoop ready i fuel).1.count .connectAttempt) := by
  induction fuel generalizing i with
  | zero => right; simp [pollLoop]
  | succ n ih =>
    by_cases hr : ready i
    · left; simp [pollLoop, hr, List.count_cons]
    · rcases ih (i + 1) with h | ⟨hc, h⟩
      · left
        simp only [pollLoop, hr, Bool.false_eq_true, if_false, List.count_cons,
          count_ev_beq_1, count_ev_beq_2, count_ev_beq_3, count_ev_beq_4, if_true]
        omega
      · right
        constructor
        · simp [pollLoop, hr, hc]
        · simp only [pollLoop, hr, Bool.false_eq_true, if_false, List.count_cons,
            count_ev_beq_1, count_ev_beq_2, count_ev_beq_3, count_ev_beq_4, if_true]
          omega

theorem pollLoop_all_fail (ready : Nat → Bool) (i fuel : Nat)
    (h : ∀ j, i ≤ j → j < i + fuel → ready j = false) :
    (pollLoop ready i fuel).2 = false := by
  induction fuel generalizing i with
  | zero => simp [pollLoop]
  | succ n ih =>
    have hi : ready i = false := h i (le_refl i) (by omega)
    simp only [pollLoop, hi, Bool.false_eq_true, if_false]
    exact ih (i + 1) (fun j h1 h2 => h j (by omega) (by omega))

theorem resolveSpawn_timeout_iff (evs : List SpawnEv) :
    resolveSpawn evs = .launchTimeout ↔ evs.filter decisive = [] := by
  induction evs with
  | nil => simp [resolveSpawn]
  | cons e rest ih =>
    cases e with
    | line t =>
      cases hm : matchBidiLine t with
      | some ws => simp [resolveSpawn, hm, List.filter_cons, decisive]
      | none => simp [resolveSpawn, hm, List.filter_cons, decisive, ih]
    | exited c => simp [resolveSpawn, List.filter_cons, decisive]

theorem resolveSpawn_first_decisive (evs : List SpawnEv) (e : SpawnEv)
    (h : (evs.filter decisive).head? = some e) :
    resolveSpawn evs = outcomeOf e := by
  induction evs with
  | nil => simp at h
  | cons a rest ih =>
    cases a with
    | line t =>
      cases hm : matchBidiLine t with
      | some ws =>
        have hd : decisive (.line t) = true := by simp [decisive, hm]
        simp only [List.filter_cons, hd, if_true, List.head?_cons, Option.some.injEq] at h
        subst h
        simp [resolveSpawn, outcomeOf, hm]
      | none =>
        have hd : decisive (.line t) = false := by simp [decisive, hm]
        simp only [List.filter_cons, hd, Bool.false_eq_true, if_false] at h
        simp only [resolveSpawn, hm]
        exact ih h
    | exited c =>
      simp only [List.filter_cons, decisive, if_true, List.head?_cons, Option.some.injEq] at h
      subst h
      simp [resolveSpawn, outcomeOf]

theorem spawnHeadlessFirefox_window (events : List (Nat × SpawnEv)) (t : Nat) (e : SpawnEv)
    (h : SPAWN_TIMEOUT_MS ≤ t) :
    spawnHeadlessFirefox (events ++ [(t, e)]) = spawnHeadlessFirefox events := by
  have ht : ¬((t, e).1 < SPAWN_TIMEOUT_MS) := Nat.not_lt.mpr h
  simp [spawnHeadlessFirefox, List.filter_append, List.filter_cons, ht]

theorem hasPath_append (a b : FS) (p : List String) :
    hasPath (a ++ b) p = (hasPath a p || hasPath b p) := List.any_append

theorem hasPath_filter_stable (fs : FS) (g : List String × String → Bool) (p : List String)
    (hg : ∀ f : List String × String, f.1 = p → g f = true) :
    hasPath (fs.filter g) p = hasPath fs p := by
  simp only [hasPath, List.any_filter]
  congr 1
  funext f
  cases hq : (f.1 == p) with
  | true => rw [hg f (eq_of_beq hq)]; simp
  | false => simp

theorem hasPath_filter_dead (fs : FS) (g : List String × String → Bool) (p : List String)
    (hg : ∀ f : List String × String, f.1 = p → g f = false) :
    hasPath (fs.filter g) p = false := by
  simp only [hasPath, List.any_filter]
  rw [List.any_eq_false]
  intro f _
  cases hq : (f.1 == p) with
  | true => rw [hg f (eq_of_beq hq)]; simp
  | false => simp

/-- Filtering never introduces a path that the base tree lacks. -/
theorem hasPath_filter_of_base_false (fs : FS) (g : List String × String → Bool)
    (p : List String) (h : hasPath fs p = false) : hasPath (fs.filter g) p = false := by
  simp only [hasPath, List.any_filter]
  simp only [hasPath] at h
  rw [List.any_eq_false] at h ⊢
  intro f hf hcontra
  rw [Bool.and_eq_true] at hcontra
  exact h f hf hcontra.2

/-! ### Claim theorems -/

/-- C2: `activePage` fails with `NoActivePage` iff the page list is empty;
when some top-level page exists it returns the last top-level page in
enumeration order (so iframe-backed entries are excluded even if they
appear later); when the top-level filter is empty it returns the last
element of the unfiltered list. -/
theorem activePage_cons_eq (a : Page) (l : List Page) (ids : List Nat) :
    activePage (a :: l) ids =
      match ((a :: l).filter (fun q => ids.contains q.ctxId)).getLast? with
      | some p => .ok p
      | none =>
        match (a :: l).getLast? with
        | some p => .ok p
        | none => .error .noActiveTab := rfl

theorem activePage_spec (pages : List Page) (ids : List Nat) :
    (activePage pages ids = .error .noActiveTab ↔ pages = []) ∧
    (∀ p, (pages.filter (fun q => ids.contains q.ctxId)).getLast? = some p →
      activePage pages ids = .ok p) ∧
    (∀ p, pages.filter (fun q => ids.contains q.ctxId) = [] → pages.getLast? = some p →
      activePage pages ids = .ok p) := by
  refine ⟨?_, ?_, ?_⟩
  · cases pages with
    | nil => simp [activePage]
    | cons a l =>
      rw [activePage_cons_eq]
      constructor
      · intro h
        exfalso
        cases h1 : ((a :: l).filter (fun q => ids.contains q.ctxId)).getLast? with
        | some p => rw [h1] at h; exact Except.noConfusion h
        | none =>
          rw [h1] at h
          cases h2 : (a :: l).getLast? with
          | some p => rw [h2] at h; exact Except.noConfusion h
          | none => rw [List.getLast?_eq_none_iff] at h2; exact List.noConfusion h2
      · intro h; exact absurd h (by simp)
  · intro p hp
    cases pages with
    | nil => simp at hp
    | cons a l =>
      rw [activePage_cons_eq, hp]
  · intro p hflt hlast
    cases pages with
    | nil => simp at hlast
    | cons a l =>
      rw [activePage_cons_eq, hflt]
      simp only [List.getLast?_nil]
      rw [hlast]

/-- C2 witness: with pages of context ids 1 and 2 where only 1 is
top-level, the top-level page is returned even though the iframe-backed
entry comes later in enumeration order. -/
theorem activePage_spec_witness :
    activePage [⟨1⟩, ⟨2⟩] [1] = .ok ⟨1⟩ :=
  (activePage_spec [⟨1⟩, ⟨2⟩] [1]).2.1 ⟨1⟩ (by decide)

/-- The appended pref block always establishes the guard marker. -/
theorem containsSub_append_syncPrefsText (s : String) :
    containsSub (s ++ syncPrefsText) syncMarker = true := by
  have h1 : syncMarker.data <:+: syncPrefsText.data := by decide
  have h2 : syncPrefsText.data <:+: (s ++ syncPrefsText).data := by
    rw [String.data_append]
    exact (List.suffix_append _ _).isInfix
  exact decide_eq_true (h1.trans h2)

/-- C8: `disableSyncPrefs` is idempotent on the preference-file content,
and the fixed pref block is appended exactly when the marker pref is not
already present. -/
theorem disableSyncPrefs_idem (s : String) :
    disableSyncPrefs (disableSyncPrefs s) = disableSyncPrefs s ∧
    (containsSub s syncMarker = true → disableSyncPrefs s = s) ∧
    (containsSub s syncMarker = false → disableSyncPrefs s = s ++ syncPrefsText) := by
  refine ⟨?_, fun h => by simp [disableSyncPrefs, h], fun h => by simp [disableSyncPrefs, h]⟩
  by_cases h : containsSub s syncMarker = true
  · simp [disableSyncPrefs, h]
  · have hf : containsSub s syncMarker = false := by simpa using h
    simp [disableSyncPrefs, hf, containsSub_append_syncPrefsText s]

/-- C8 witness: applied to an empty `user.js`, one application appends the
pref block and a second application leaves the content unchanged. -/
theorem disableSyncPrefs_idem_witness :
    disableSyncPrefs (disableSyncPrefs "") = disableSyncPrefs "" ∧
    disableSyncPrefs "" = "" ++ syncPrefsText :=
  ⟨(disableSyncPrefs_idem "").1, (disableSyncPrefs_idem "").2.2 (by decide)⟩

/-- C3: a reuse-only acquisition against a world with no listener fails
with `NoBrowserRunning`: exit code 1, exactly one connection attempt (no
retries), no process spawn, the remediation message is printed, and the
attempt is bounded by the configured 5000ms timeout. -/
theorem connectOrExit_noBrowserRunning (w : ConnWorld) (h : w.listener = false) :
    (connectOrExit w).result = .error .noBrowserRunning ∧
    (connectOrExit w).exitCode = some 1 ∧
    (connectOrExit w).trace.count .connectAttempt = 1 ∧
    (connectOrExit w).trace.count .spawn = 0 ∧
    Ev.msg remediationMsg ∈ (connectOrExit w).trace ∧
    (connect w).durationMs ≤ CONNECT_TIMEOUT_MS := by
  by_cases hm : w.attemptMs < CONNECT_TIMEOUT_MS
  · refine ⟨?_, ?_, ?_, ?_, ?_, ?_⟩ <;>
      simp [connectOrExit, connect, hm, h, List.count_cons, List.count_append] <;> omega
  · refine ⟨?_, ?_, ?_, ?_, ?_, ?_⟩ <;>
      simp [connectOrExit, connect, hm, h, List.count_cons, List.count_append]

/-- C3 witness: no listener, a 100ms connection refusal. -/
theorem connectOrExit_noBrowserRunning_witness :
    (connectOrExit ⟨false, 100⟩).result = .error .noBrowserRunning ∧
    (connectOrExit ⟨false, 100⟩).exitCode = some 1 ∧
    (connectOrExit ⟨false, 100⟩).trace.count .connectAttempt = 1 ∧
    (connectOrExit ⟨false, 100⟩).trace.count .spawn = 0 ∧
    Ev.msg remediationMsg ∈ (connectOrExit ⟨false, 100⟩).trace ∧
    (connect ⟨false, 100⟩).durationMs ≤ CONNECT_TIMEOUT_MS :=
  connectOrExit_noBrowserRunning ⟨false, 100⟩ rfl

/-- C4: a spawn-fresh request when a browser is already listening is an
idempotent no-op with respect to process creation: `firefox-start`
treats it as success (exit 0) and its trace contains no spawn event. -/
theorem firefoxStart_alreadyRunning_idempotent (w : StartWorld) (h : w.ready 0 = true) :
    (firefoxStart w).exitCode = some 0 ∧
    (firefoxStart w).result = .ok () ∧
    (firefoxStart w).trace.count .spawn = 0 := by
  refine ⟨?_, ?_, ?_⟩ <;> simp [firefoxStart, h, List.count_cons]

/-- C4 witness: every attempt succeeds (a browser is listening); no
Firefox binary is even needed. -/
theorem firefoxStart_alreadyRunning_witness :
    (firefoxStart ⟨fun _ => true, false⟩).exitCode = some 0 ∧
    (firefoxStart ⟨fun _ => true, false⟩).result = .ok () ∧
    (firefoxStart ⟨fun _ => true, false⟩).trace.count .spawn = 0 :=
  firefoxStart_alreadyRunning_idempotent ⟨fun _ => true, false⟩ rfl

/-- C5: the post-spawn polling loop is bounded — at most 30 connection
attempts; every sleep between attempts is exactly 500ms, and each failed
attempt is followed by exactly one such sleep; if no attempt succeeds the
controller declares `LaunchTimeout` with a failure message and exit code
1; and the connector itself performs exactly one attempt per call, so no
retries happen anywhere else. -/
theorem firefoxStart_poll_bounded (w : StartWorld) :
    (pollLoop w.ready 1 POLL_MAX_ATTEMPTS).1.count .connectAttempt ≤ POLL_MAX_ATTEMPTS ∧
    (∀ m, Ev.sleep m ∈ (pollLoop w.ready 1 POLL_MAX_ATTEMPTS).1 → m = POLL_INTERVAL_MS) ∧
    ((pollLoop w.ready 1 POLL_MAX_ATTEMPTS).1.count (.sleep POLL_INTERVAL_MS) +
        (if (pollLoop w.ready 1 POLL_MAX_ATTEMPTS).2 then 1 else 0) =
        (pollLoop w.ready 1 POLL_MAX_ATTEMPTS).1.count .connectAttempt ∨
      ((pollLoop w.ready 1 POLL_MAX_ATTEMPTS).2 = false ∧
        (pollLoop w.ready 1 POLL_MAX_ATTEMPTS).1.count (.sleep POLL_INTERVAL_MS) =
          (pollLoop w.ready 1 POLL_MAX_ATTEMPTS).1.count .connectAttempt)) ∧
    (w.ready 0 = false → w.firefoxFound = true →
      (∀ i, 1 ≤ i → i ≤ POLL_MAX_ATTEMPTS → w.ready i = false) →
      (firefoxStart w).exitCode = some 1 ∧
      (firefoxStart w).result = .error .launchTimeout ∧
      Ev.msg "✗ Failed to connect to Firefox" ∈ (firefoxStart w).trace) ∧
    (∀ w' : ConnWorld, (connect w').trace.count .connectAttempt = 1) := by
  refine ⟨pollLoop_attempts_le _ _ _, fun m hm => pollLoop_sleep_fixed _ _ _ _ hm,
    pollLoop_interval _ _ _, ?_, ?_⟩
  · intro h0 hf hall
    have hcf : (pollLoop w.ready 1 POLL_MAX_ATTEMPTS).2 = false :=
      pollLoop_all_fail _ _ _ (fun j h1 h2 => hall j h1 (by omega))
    refine ⟨?_, ?_, ?_⟩ <;> simp [firefoxStart, h0, hf, hcf]
  · intro w'
    by_cases hm : w'.attemptMs < CONNECT_TIMEOUT_MS <;>
      simp [connect, hm, List.count_cons]

/-- C5 witness: a world where no poll attempt ever succeeds ends in
`LaunchTimeout` with exit code 1 and the failure message. -/
theorem firefoxStart_poll_bounded_witness :
    (firefoxStart ⟨fun _ => false, true⟩).exitCode = some 1 ∧
    (firefoxStart ⟨fun _ => false, true⟩).result = .error .launchTimeout ∧
    Ev.msg "✗ Failed to connect to Firefox" ∈ (firefoxStart ⟨fun _ => false, true⟩).trace :=
  (firefoxStart_poll_bounded ⟨fun _ => false, true⟩).2.2.2.1 rfl rfl (fun _ _ _ => rfl)

/-- C6: the headless spawn wait is a single three-way race, and exactly
one outcome occurs per spawn (the function is total into the three-valued
`SpawnOutcome`): it times out iff no decisive event (matching line or
process exit) arrives inside the 15000ms window; otherwise the first
decisive in-window event determines the outcome — a line matching the
"listening on" pattern yields its endpoint, a process exit yields
`ProcessExited(code)`; and events at or after the 15000ms mark are
ignored. -/
theorem spawnHeadlessFirefox_race (events : List (Nat × SpawnEv)) :
    (spawnHeadlessFirefox events = .launchTimeout ↔
      ((events.filter (fun x => x.1 < SPAWN_TIMEOUT_MS)).map Prod.snd).filter decisive = []) ∧
    (∀ e, (((events.filter (fun x => x.1 < SPAWN_TIMEOUT_MS)).map Prod.snd).filter
        decisive).head? = some e →
      spawnHeadlessFirefox events = outcomeOf e) ∧
    (∀ t e, SPAWN_TIMEOUT_MS ≤ t →
      spawnHeadlessFirefox (events ++ [(t, e)]) = spawnHeadlessFirefox events) ∧
    (∀ s ws, matchBidiLine s = some ws → outcomeOf (.line s) = .endpoint ws) ∧
    (∀ c, outcomeOf (.exited c) = .processExited c) :=
  ⟨resolveSpawn_timeout_iff _,
   fun _ he => resolveSpawn_first_decisive _ _ he,
   fun _ _ ht => spawnHeadlessFirefox_window _ _ _ ht,
   fun _ _ hm => by simp [outcomeOf, hm],
   fun _ => rfl⟩

/-- C6 witness: a noise line, then the announcement at 2000ms, then a
process exit after the window: the race resolves to the announced
endpoint. -/
theorem spawnHeadlessFirefox_race_witness :
    spawnHeadlessFirefox [(1000, .line "Hi"),
      (2000, .line "WebDriver BiDi listening on ws://127.0.0.1:45678"),
      (20000, .exited 1)] = .endpoint "ws://127.0.0.1:45678" :=
  (spawnHeadlessFirefox_race [(1000, .line "Hi"),
      (2000, .line "WebDriver BiDi listening on ws://127.0.0.1:45678"),
      (20000, .exited 1)]).2.1
    (.line "WebDriver BiDi listening on ws://127.0.0.1:45678") (by decide)


/-- C7 counterexample: the claim is false as stated.  `rsync --delete`
(without `--delete-excluded`) protects destination files matching an
exclude pattern from deletion.  With a source profile containing a lock
file, a `cache2` entry and a `sessionstore.jsonlz4` file — exactly the
claim's premise — and a destination holding a stale `cache2` entry that
is not in the source, the stale entry is still present after
`syncProfile`: so neither "every file present in the destination but not
in the source is removed" nor "no cache2 path exists in the destination
afterwards" holds. -/
theorem syncProfile_counterexample :
    hasPath srcEx ["lock"] = true ∧
    hasPath srcEx ["cache2", "entry"] = true ∧
    hasPath srcEx ["sessionstore.jsonlz4"] = true ∧
    hasPath dstEx ["cache2", "stale"] = true ∧
    hasPath srcEx ["cache2", "stale"] = false ∧
    hasPath (syncProfile dstEx (some srcEx)).profile ["cache2", "stale"] = true := by
  decide

/-- C7 (amended): `syncProfile` with a resolved source mirrors the
non-excluded part of the tree (a non-excluded path is in the destination
afterwards iff it is in the source — so copied files appear and
extraneous destination files are removed); excluded paths are never
copied (afterwards they are present iff the lock-cleaned destination
already had them, rsync protecting them from `--delete`); the top-level
`lock` and `.parentlock` files never survive; into a fresh (empty)
destination no excluded path ever appears; and the result reports
`synced = true`. -/
theorem syncProfile_mirror (src dst : FS) (p : List String) :
    (excludedPath p = false →
      hasPath (syncProfile dst (some src)).profile p = hasPath src p) ∧
    (excludedPath p = true →
      hasPath (syncProfile dst (some src)).profile p = hasPath (rmLockFiles dst) p) ∧
    hasPath (syncProfile dst (some src)).profile ["lock"] = false ∧
    hasPath (syncProfile dst (some src)).profile [".parentlock"] = false ∧
    (excludedPath p = true → hasPath (syncProfile [] (some src)).profile p = false) ∧
    (syncProfile dst (some src)).synced = true := by
  have hmain : ∀ (d : FS) (q : List String),
      hasPath (syncProfile d (some src)).profile q =
        (hasPath (src.filter (fun f => !excludedPath f.1)) q ||
         hasPath ((rmLockFiles d).filter (fun f => excludedPath f.1)) q) := by
    intro d q
    show hasPath (rsyncArchiveDelete src (rmLockFiles d)) q = _
    exact hasPath_append _ _ q
  refine ⟨?_, ?_, ?_, ?_, ?_, rfl⟩
  · intro hp
    rw [hmain dst p,
      hasPath_filter_stable src _ p (fun f hf => by rw [hf, hp]; rfl),
      hasPath_filter_dead (rmLockFiles dst) _ p (fun f hf => by rw [hf]; exact hp),
      Bool.or_false]
  · intro hp
    rw [hmain dst p,
      hasPath_filter_dead src _ p (fun f hf => by rw [hf, hp]; rfl),
      hasPath_filter_stable (rmLockFiles dst) _ p (fun f hf => by rw [hf]; exact hp),
      Bool.false_or]
  · rw [hmain dst ["lock"],
      hasPath_filter_dead src _ _ (fun f hf => by rw [hf]; rfl),
      hasPath_filter_of_base_false (rmLockFiles dst) _ _
        (hasPath_filter_dead dst _ _ (fun f hf => by rw [hf]; rfl)),
      Bool.or_false]
  · rw [hmain dst [".parentlock"],
      hasPath_filter_dead src _ _ (fun f hf => by rw [hf]; rfl),
      hasPath_filter_of_base_false (rmLockFiles dst) _ _
        (hasPath_filter_dead dst _ _ (fun f hf => by rw [hf]; rfl)),
      Bool.or_false]
  · intro hp
    rw [hmain [] p,
      hasPath_filter_dead src _ p (fun f hf => by rw [hf, hp]; rfl)]
    rfl

/-- C7 witness for the amended theorem: the ordinary `prefs.js` file is
mirrored, and syncing into a fresh destination yields no `cache2` path. -/
theorem syncProfile_mirror_witness :
    hasPath (syncProfile dstEx (some srcEx)).profile ["prefs.js"] = hasPath srcEx ["prefs.js"] ∧
    hasPath (syncProfile [] (some srcEx)).profile ["cache2", "entry"] = false :=
  ⟨(syncProfile_mirror srcEx dstEx ["prefs.js"]).1 (by decide),
   (syncProfile_mirror srcEx [] ["cache2", "entry"]).2.2.2.2.1 (by decide)⟩

/-- C9: when the requested name has no match in the profile-groups
registry, the flow fails with `ProfileNotFound` carrying the available
profile names and launches no browser process; when the name matches
several entries the first match is returned together with a non-fatal
warning naming the match count and the chosen path; a unique match
carries no warning. -/
theorem locateNamedProfile_spec (env : ProfilesEnv) (name : String) :
    (matchesFor env name = [] →
      (startWithNamedProfile env name).2 =
        .error (.profileNotFound (listProfileNames env)) ∧
      (startWithNamedProfile env name).1.count .spawn = 0) ∧
    (∀ p rest, matchesFor env name = p :: rest → rest ≠ [] →
      findProfileByName env name =
        some ⟨p, some (multiMatchWarning (rest.length + 1) name p)⟩) ∧
    (∀ p, matchesFor env name = [p] →
      findProfileByName env name = some ⟨p, none⟩) := by
  refine ⟨?_, ?_, ?_⟩
  · intro h
    simp only [startWithNamedProfile, findProfileByName, h]
    exact ⟨trivial, rfl⟩
  · intro p rest hm hne
    simp only [findProfileByName, hm]
    rw [if_pos]
    · rfl
    · have : 0 < rest.length := List.length_pos.mpr hne
      simp only [List.length_cons]
      omega
  · intro p hm
    simp only [findProfileByName, hm]
    rfl

/-- C9 witness: the spec's end-to-end scenario — requesting "Work" when
the registry knows "Personal" and "Dev" fails with those available names
and spawns nothing. -/
theorem locateNamedProfile_spec_witness :
    (startWithNamedProfile envEx "Work").2 =
      .error (.profileNotFound (listProfileNames envEx)) ∧
    listProfileNames envEx = ["Personal", "Dev"] ∧
    (startWithNamedProfile envEx "Work").1.count .spawn = 0 :=
  ⟨((locateNamedProfile_spec envEx "Work").1 (by decide)).1,
   by decide,
   ((locateNamedProfile_spec envEx "Work").1 (by decide)).2⟩

/-- C1: on every exit path of the single-shot content-extraction flow
(success, extraction error, navigation failure), the `finally` cleanup
runs: when the flow spawned the browser itself the process is terminated
and the connection closed; when it reused a pre-existing browser only the
connection is closed and the process's running state is untouched. -/
theorem release_on_all_exit_paths (o : FlowOutcome) (s0 : BrowserState) :
    (contentFlowSpawned o).procRunning = false ∧
    (contentFlowSpawned o).connected = false ∧
    (contentFlowReused o s0).1.connected = false ∧
    (contentFlowReused o s0).1.procRunning = s0.procRunning :=
  ⟨rfl, rfl, rfl, rfl⟩

/-- C10: when the flow reuses an already-running browser it operates on a
newly opened tab (one that is not among the pre-existing tabs), and on
completion — whatever the outcome — exactly that tab is closed again:
the set of pre-existing tabs and the browser process are unchanged. -/
theorem contentFlowReused_frame (o : FlowOutcome) (s0 : BrowserState) :
    (contentFlowReused o s0).2 ∉ s0.tabs ∧
    (contentFlowReused o s0).1.tabs = s0.tabs ∧
    (contentFlowReused o s0).1.procRunning = s0.procRunning := by
  have hfresh : freshTabId { s0 with connected := true } ∉ s0.tabs :=
    freshTabId_not_mem { s0 with connected := true }
  refine ⟨hfresh, ?_, rfl⟩
  show ((s0.tabs ++ [freshTabId { s0 with connected := true }]).filter
      (fun x => x ≠ freshTabId { s0 with connected := true })) = s0.tabs
  exact filter_ne_append_singleton _ _ hfresh

end FirefoxSkill
